import Mathlib

/-!
Verification of the PhishNot text-to-decision pipeline.

The serving layer is embedded from `backend/main.py`, the training layer
from `backend/train_model.py` and `backend/check_model_accuracy.py`.
Python strings are modelled as `List Char`; sklearn machine floats are
modelled as exact rationals (decision values) and reals (probabilities).
The internals of the sklearn `TfidfVectorizer` are not part of the
repository; where a claim depends on them they are modelled from the
spec (section 4.1), with the parameters (`max_features=8000`, `min_df=2`,
`max_df=0.95`, stop-word removal) taken from `train_model.py`.
-/

namespace PhishNot

/-- Raw request / document text, modelled as a list of characters. -/
abbrev PyText := List Char

/-- Blank test `not request.email or not request.email.strip()` from `main.py`:
the text is empty or consists only of whitespace. -/
def isBlank (t : PyText) : Bool := t.all Char.isWhitespace

/-- Parameters of the fitted `LogisticRegression` model: a weight vector
and a bias (intercept), as stored in `phish_model.pkl`. -/
structure LogRegModel where
  w : List ℚ
  b : ℚ

/-- Dot product of two (sparse, truncated) vectors. -/
def dotQ : List ℚ → List ℚ → ℚ
  | [], _ => 0
  | _, [] => 0
  | a :: as, c :: cs => a * c + dotQ as cs

/-- The linear decision value `w·v + b` (`decision_function` of sklearn). -/
def decisionValue (m : LogRegModel) (v : List ℚ) : ℚ := dotQ m.w v + m.b

/-- The `LogisticRegression.predict` rule on a binary model with classes `[0, 1]`:
class 1 exactly when the decision value is strictly positive. -/
def modelPredict (m : LogRegModel) (v : List ℚ) : ℕ :=
  if 0 < decisionValue m v then 1 else 0

/-- The logistic sigmoid `1 / (1 + exp (-z))`. -/
noncomputable def sigmoid (z : ℝ) : ℝ := 1 / (1 + Real.exp (-z))

/-- The `LogisticRegression.predict_proba` row for one sample:
`(P(class 0), P(class 1)) = (1 - sigmoid z, sigmoid z)`. -/
noncomputable def predictProba (m : LogRegModel) (v : List ℚ) : ℝ × ℝ :=
  (1 - sigmoid ((decisionValue m v : ℚ) : ℝ), sigmoid ((decisionValue m v : ℚ) : ℝ))

/-- The in-process serving state: the two module-level globals of
`main.py` (`model`, `vectorizer`) plus `model_load_error`. The loaded
vectorizer is modelled by its `transform` function on a single text. -/
structure ServerState where
  model : Option LogRegModel
  vectorizer : Option (PyText → List ℚ)
  modelLoadError : Option String

/-- An HTTP error response (`HTTPException`): status code and detail. -/
structure ApiError where
  status : ℕ
  detail : String

/-- Outcome of the model branch of `/predict`: the decision value of the
vectorized email and the `prediction == 1` flag. -/
structure PredOut where
  z : ℚ
  phishing : Bool

/-- The JSON response of `/predict`: `{phishing, confidence}`. -/
structure PredictionResponse where
  phishing : Bool
  confidence : ℝ

/-- The 503 detail string `main.py` builds when models are not loaded. -/
def unavailableDetail (st : ServerState) : String :=
  match st.modelLoadError with
  | some e => "ML models not loaded. Error: " ++ e
  | none => "ML models not loaded."

/-- The `/predict` handler of `main.py`, instrumented: the first component
is the HTTP outcome (decision value and label on success), the second
records whether the model/vectorizer branch was actually entered.
Faithful to the source order: the artifact-availability check
(`model is None or vectorizer is None` → 503) runs before the blank-input
check (→ 400), which runs before any vectorizer/model call. -/
def predictRun (st : ServerState) (email : PyText) :
    Except ApiError PredOut × Bool :=
  match st.model, st.vectorizer with
  | some m, some vz =>
    if isBlank email then
      (Except.error ⟨400, "Email text cannot be empty"⟩, false)
    else
      let v := vz email
      (Except.ok ⟨decisionValue m v, modelPredict m v == 1⟩, true)
  | _, _ => (Except.error ⟨503, unavailableDetail st⟩, false)

/-- Confidence of the response built from a `PredOut`, as in `main.py`:
`probabilities[1]` if the prediction is 1, else `probabilities[0]`. -/
noncomputable def responseOf (d : PredOut) : PredictionResponse :=
  ⟨d.phishing, if d.phishing then sigmoid ((d.z : ℚ) : ℝ) else 1 - sigmoid ((d.z : ℚ) : ℝ)⟩

/-- The `/predict` endpoint: route then build the response. -/
noncomputable def predict (st : ServerState) (email : PyText) :
    Except ApiError PredictionResponse :=
  (predictRun st email).1.map responseOf

/-- HTTP status of an outcome (`none` on success). -/
def statusOf {α : Type} : Except ApiError α → Option ℕ
  | Except.error e => some e.status
  | Except.ok _ => none

/-- Artifact files on disk, as seen by `load_models`: `none` models a
missing file, `some` a present and loadable one. -/
structure ArtifactFiles where
  modelFile : Option LogRegModel
  vectorizerFile : Option (PyText → List ℚ)

/-- The `load_models` function from `main.py`: fails if either file is missing (the
model-file check runs first), otherwise yields the loaded pair. -/
def load_models (fs : ArtifactFiles) :
    Except String (LogRegModel × (PyText → List ℚ)) :=
  match fs.modelFile with
  | none => Except.error "Model file not found"
  | some m =>
    match fs.vectorizerFile with
    | none => Except.error "Vectorizer file not found"
    | some vz => Except.ok (m, vz)

/-- The `lifespan` startup of `main.py`: `load_models` is attempted and
every failure is caught, leaving the globals unset and the error
recorded; startup always completes with a server state. -/
def lifespanStartup (fs : ArtifactFiles) : ServerState :=
  match load_models fs with
  | Except.ok (m, vz) => ⟨some m, some vz, none⟩
  | Except.error e => ⟨none, none, some e⟩

/-! ### Text normalization (`preprocess_text` in `train_model.py`) -/

/-- ASCII lowercasing of one character, as Python `str.lower` acts on
the basic latin range: codepoints 65..90 are shifted by 32. -/
def lowerChar (c : Char) : Char :=
  if 65 ≤ c.toNat ∧ c.toNat ≤ 90 then Char.ofNat (c.toNat + 32) else c

/-- Lowercasing `text.lower()` over the whole text. -/
def lowerText (l : PyText) : PyText := l.map lowerChar

/-- Characters kept inside a word by `str.split()`. -/
def noWsChar (c : Char) : Bool := !c.isWhitespace

/-- Python `str.split()` with no argument: split on runs of whitespace,
dropping empty chunks. -/
def pySplit : PyText → List PyText
  | [] => []
  | c :: cs =>
    if h : c.isWhitespace then pySplit cs
    else ((c :: cs).takeWhile noWsChar) :: pySplit ((c :: cs).dropWhile noWsChar)
termination_by l => l.length
decreasing_by
  · simp only [List.length_cons]; omega
  · rw [List.dropWhile_cons_of_pos (by simp [noWsChar, h])]
    have := (List.dropWhile_sublist (l := cs) noWsChar).length_le
    simp only [List.length_cons]; omega

/-- Python `' '.join(words)`. -/
def joinWords : List PyText → PyText
  | [] => []
  | [w] => w
  | w :: ws => w ++ ' ' :: joinWords ws

/-- Composition `' '.join(text.split())`: collapse whitespace runs to single spaces
and strip leading/trailing whitespace. -/
def collapseWs (l : PyText) : PyText := joinWords (pySplit l)

/-- The `preprocess_text` function from `train_model.py`: `pd.isna` input (modelled as
`none`) maps to the empty string; otherwise lowercase then collapse
whitespace. The `str(text)` coercion is modelled by taking the string
form of non-missing values as the input. -/
def preprocess_text : Option PyText → PyText
  | none => []
  | some t => collapseWs (lowerText t)

/-! ### Label normalization -/

/-- Python `str.lower()` on a whole string (ASCII case mapping). -/
def pyLower (x : String) : String := ⟨lowerText x.data⟩

/-- The label coercion of `load_or_create_dataset` in `train_model.py`:
`1 if str(x).lower() in ['1', 'true', 'phishing', 'yes', '1.0'] else 0`.
The input is the string form `str(x)` of the raw label value. -/
def labelNormalizeTrain (x : String) : ℕ :=
  if pyLower x ∈ (["1", "true", "phishing", "yes", "1.0"] : List String) then 1 else 0

/-- The label coercion of `evaluate_on_test_data` in
`check_model_accuracy.py`:
`1 if str(x).lower() in ['1', 'true', 'phishing', 'yes'] else 0`. -/
def labelNormalizeCheck (x : String) : ℕ :=
  if pyLower x ∈ (["1", "true", "phishing", "yes"] : List String) then 1 else 0

/-! ### Vectorizer fitting

Modelled from the spec: the fitting algorithm of `TfidfVectorizer` lives
inside scikit-learn, not in this repository; `train_model.py` only
supplies its parameters. The definitions below follow spec section 4.1
steps (c)-(h) over already-tokenized documents: document-frequency
pruning with `min_df=2` and `max_df=0.95`, a cap of `max_features=8000`
keeping the highest-scoring candidates with lexicographic tie-break, and
the smoothed IDF formula. The selection score is the corpus-wide term
frequency (the spec's "scoring criterion combining term frequency and
inverse document frequency" left the exact combination open; total term
frequency is the criterion the library uses). -/

/-- A token (unigram or bigram as a string). -/
abbrev Token := String

/-- A tokenized document. -/
abbrev TokenDoc := List Token

/-- Document frequency of a token: number of corpus documents containing it. -/
def docFreq (corpus : List TokenDoc) (t : Token) : ℕ :=
  (corpus.filter (fun d => d.contains t)).length

/-- Corpus-wide term frequency of a token: total occurrence count. -/
def termFreq (corpus : List TokenDoc) (t : Token) : ℕ :=
  (corpus.map (fun d => d.count t)).sum

/-- Candidate tokens: all tokens occurring in the corpus, stop-words
removed, deduplicated. -/
def candidateTokens (stopWords : List Token) (corpus : List TokenDoc) : List Token :=
  (corpus.flatten.filter (fun t => !stopWords.contains t)).dedup

/-- Cap `max_features=8000` from `train_model.py`. -/
def maxFeatures : ℕ := 8000

/-- Document-frequency admissibility: `min_df=2` (document frequency at
least 2) and `max_df=0.95` (document-frequency ratio at most 0.95,
i.e. `20 * df ≤ 19 * N` over the integers). -/
def dfAdmissible (corpus : List TokenDoc) (t : Token) : Bool :=
  decide (2 ≤ docFreq corpus t) && decide (20 * docFreq corpus t ≤ 19 * corpus.length)

/-- Candidates surviving the document-frequency pruning. -/
def prunedCandidates (stopWords : List Token) (corpus : List TokenDoc) : List Token :=
  (candidateTokens stopWords corpus).filter (dfAdmissible corpus)

/-- Selection order for the feature cap: higher score first, ties broken
by lexicographic token order. -/
def keyLE (corpus : List TokenDoc) (a b : Token) : Prop :=
  termFreq corpus b < termFreq corpus a ∨
    (termFreq corpus a = termFreq corpus b ∧ a ≤ b)

instance keyLE.dec (corpus : List TokenDoc) : DecidableRel (keyLE corpus) := by
  intro a b; unfold keyLE; infer_instance

instance keyLE.total (corpus : List TokenDoc) : IsTotal Token (keyLE corpus) := by
  constructor
  intro a b
  rcases Nat.lt_trichotomy (termFreq corpus a) (termFreq corpus b) with h | h | h
  · right; left; exact h
  · rcases le_total a b with hab | hab
    · left; right; exact ⟨h, hab⟩
    · right; right; exact ⟨h.symm, hab⟩
  · left; left; exact h

instance keyLE.trans (corpus : List TokenDoc) : IsTrans Token (keyLE corpus) := by
  constructor
  intro a b c hab hbc
  rcases hab with h1 | ⟨h1, h1'⟩ <;> rcases hbc with h2 | ⟨h2, h2'⟩
  · left; omega
  · left; omega
  · left; omega
  · right; exact ⟨by omega, le_trans h1' h2'⟩

/-- The retained vocabulary: all pruned candidates if they fit in
`max_features`, otherwise the 8000 highest-scoring ones (deterministic
lexicographic tie-break via a stable sort). -/
def selectTop (stopWords : List Token) (corpus : List TokenDoc) : List Token :=
  let pruned := prunedCandidates stopWords corpus
  if pruned.length ≤ maxFeatures then pruned
  else (List.insertionSort (keyLE corpus) pruned).take maxFeatures

/-- The fitted vectorizer state: vocabulary in selection order, corpus
size, and the document-frequency statistics needed for IDF. -/
structure FittedVectorizer where
  vocab : List Token
  corpusSize : ℕ
  df : Token → ℕ

/-- Fitting `Vectorizer.fit`: build the vocabulary and document-frequency
statistics from the corpus. -/
def fitVectorizer (stopWords : List Token) (corpus : List TokenDoc) : FittedVectorizer :=
  ⟨selectTop stopWords corpus, corpus.length, docFreq corpus⟩

/-- The stored IDF weight of a token: `log((1+N)/(1+df)) + 1`. -/
noncomputable def idfWeight (F : FittedVectorizer) (t : Token) : ℝ :=
  Real.log ((1 + F.corpusSize) / (1 + F.df t)) + 1

/-- Output of the training pipeline relevant to leakage: the vectorizer
fitted on the train partition, and the held-out partition that is
subsequently only transformed and evaluated (never fitted on).
`train_model` in `train_model.py` calls `vectorizer.fit_transform(X_train)`
and only `vectorizer.transform(X_test)`. -/
structure TrainOutput where
  vect : FittedVectorizer
  heldOut : List TokenDoc

/-- The fitting stage of `train_model`, parameterized by the two
partitions produced by the train/test split. -/
def train_model_core (stopWords : List Token)
    (trainDocs testDocs : List TokenDoc) : TrainOutput :=
  ⟨fitVectorizer stopWords trainDocs, testDocs⟩

/-! ### Artifact persistence (`train_model.py`, saving section) -/

/-- Presence of the two artifact files in the backend directory. -/
structure ArtifactDir where
  modelFileExists : Bool
  vectorizerFileExists : Bool

/-- First write `joblib.dump(model, model_path)`: writes `phish_model.pkl`. -/
def saveModelStep (d : ArtifactDir) : ArtifactDir :=
  { d with modelFileExists := true }

/-- Second write `joblib.dump(vectorizer, vectorizer_path)`: writes `vectorizer.pkl`. -/
def saveVectorizerStep (d : ArtifactDir) : ArtifactDir :=
  { d with vectorizerFileExists := true }

/-- The persistence phase of `train_model`: the model is dumped first,
then the vectorizer, as two independent sequential writes. -/
def persistSteps : List (ArtifactDir → ArtifactDir) :=
  [saveModelStep, saveVectorizerStep]

/-- Directory state after the first `k` persistence steps have executed;
`k < 2` models a failure interrupting the persistence phase. -/
def runPersist (k : ℕ) (d : ArtifactDir) : ArtifactDir :=
  (persistSteps.take k).foldl (fun s f => f s) d

/-- The both-or-neither property of an artifact directory. -/
def bothOrNeither (d : ArtifactDir) : Prop :=
  d.modelFileExists = d.vectorizerFileExists

/-! ### Concrete fixtures used by witnesses and counterexamples -/

/-- A tiny concrete model. -/
def exampleModel : LogRegModel := ⟨[1], 0⟩

/-- A tiny concrete transform. -/
def exampleTransform : PyText → List ℚ := fun _ => [1]

/-- A serving state with both artifacts loaded. -/
def exampleState : ServerState := ⟨some exampleModel, some exampleTransform, none⟩

/-- A serving state after startup with both artifacts missing. -/
def degradedState : ServerState := ⟨none, none, some "Model file not found"⟩

/-- A concrete non-blank email. -/
def exampleEmail : PyText := ['h', 'i']

/-- A concrete whitespace-only email. -/
def exampleBlankEmail : PyText := [' ']

/-- A file system with both artifact files absent. -/
def exampleMissingFiles : ArtifactFiles := ⟨none, none⟩

/-- A model whose decision value is exactly 0 on the empty vector. -/
def boundaryModel : LogRegModel := ⟨[], 0⟩

/-- A tiny tokenized corpus: token "a" has document frequency 2 of 3,
token "b" has document frequency 1. -/
def exampleCorpus : List TokenDoc := [["a"], ["a"], ["b"]]

/-- A backend directory with neither artifact file present. -/
def freshDir : ArtifactDir := ⟨false, false⟩

/-! ### Sigmoid facts shared by the serving theorems -/

theorem sigmoid_denom_pos (z : ℝ) : 0 < 1 + Real.exp (-z) := by
  have := Real.exp_pos (-z); linarith

theorem sigmoid_pos (z : ℝ) : 0 < sigmoid z :=
  div_pos one_pos (sigmoid_denom_pos z)

theorem sigmoid_lt_one (z : ℝ) : sigmoid z < 1 := by
  have h := sigmoid_denom_pos z
  have he := Real.exp_pos (-z)
  rw [sigmoid, div_lt_one h]; linarith

theorem half_lt_sigmoid_iff (z : ℝ) : 1 / 2 < sigmoid z ↔ 0 < z := by
  have h := sigmoid_denom_pos z
  rw [sigmoid, div_lt_div_iff₀ two_pos h, one_mul, one_mul]
  constructor
  · intro hlt
    have h1 : Real.exp (-z) < 1 := by linarith
    have := Real.exp_lt_exp.mp (by simpa [Real.exp_zero] using h1)
    linarith
  · intro hz
    have h1 : Real.exp (-z) < Real.exp 0 := Real.exp_lt_exp.mpr (by linarith)
    rw [Real.exp_zero] at h1
    linarith

theorem sigmoid_le_half_iff (z : ℝ) : sigmoid z ≤ 1 / 2 ↔ z ≤ 0 := by
  rw [← not_lt, ← not_lt, not_iff_not]
  exact half_lt_sigmoid_iff z

theorem sigmoid_zero : sigmoid 0 = 1 / 2 := by
  rw [sigmoid, neg_zero, Real.exp_zero]; norm_num

/-! ### Routing facts about the `/predict` handler -/

theorem predictRun_unavailable {st : ServerState}
    (h : st.model = none ∨ st.vectorizer = none) (email : PyText) :
    predictRun st email = (Except.error ⟨503, unavailableDetail st⟩, false) := by
  obtain ⟨sm, sv, se⟩ := st
  simp only at h
  rcases h with h | h
  · subst h; rfl
  · subst h
    cases sm with
    | none => rfl
    | some m => rfl

theorem predictRun_loaded_blank {st : ServerState} {m : LogRegModel}
    {vz : PyText → List ℚ} (hm : st.model = some m) (hv : st.vectorizer = some vz)
    {email : PyText} (hb : isBlank email = true) :
    predictRun st email = (Except.error ⟨400, "Email text cannot be empty"⟩, false) := by
  obtain ⟨sm, sv, se⟩ := st
  simp only at hm hv
  subst hm; subst hv
  simp [predictRun, hb]

theorem predictRun_loaded_ok {st : ServerState} {m : LogRegModel}
    {vz : PyText → List ℚ} (hm : st.model = some m) (hv : st.vectorizer = some vz)
    {email : PyText} (hb : isBlank email = false) :
    predictRun st email =
      (Except.ok ⟨decisionValue m (vz email), modelPredict m (vz email) == 1⟩, true) := by
  obtain ⟨sm, sv, se⟩ := st
  simp only at hm hv
  subst hm; subst hv
  simp [predictRun, hb]

/-! ### Character and whitespace facts -/

theorem toNat_ofNat_valid {n : ℕ} (h : n.isValidChar) : (Char.ofNat n).toNat = n := by
  rw [Char.ofNat, dif_pos h]; rfl

theorem char_toNat_inj {c d : Char} (h : c.toNat = d.toNat) : c = d := by
  have := congrArg Char.ofNat h
  rwa [Char.ofNat_toNat, Char.ofNat_toNat] at this

theorem lowerChar_toNat_of_upper {c : Char} (h : 65 ≤ c.toNat ∧ c.toNat ≤ 90) :
    (lowerChar c).toNat = c.toNat + 32 := by
  rw [lowerChar, if_pos h]
  exact toNat_ofNat_valid (Or.inl (by omega))

theorem lowerChar_idem (c : Char) : lowerChar (lowerChar c) = lowerChar c := by
  by_cases h : 65 ≤ c.toNat ∧ c.toNat ≤ 90
  · have ht := lowerChar_toNat_of_upper h
    have hn : ¬ (65 ≤ (lowerChar c).toNat ∧ (lowerChar c).toNat ≤ 90) := by omega
    conv_lhs => rw [lowerChar]
    rw [if_neg hn]
  · have hc : lowerChar c = c := by rw [lowerChar, if_neg h]
    rw [hc, hc]

theorem lowerChar_space : lowerChar ' ' = ' ' := by
  rw [lowerChar, if_neg (by decide : ¬ (65 ≤ (' ').toNat ∧ (' ').toNat ≤ 90))]

/-! ### `str.split` / `' '.join` facts -/

theorem pySplit_words {l : PyText} :
    ∀ w ∈ pySplit l, w ≠ [] ∧ ∀ c ∈ w, c.isWhitespace = false := by
  induction l using pySplit.induct with
  | case1 => intro w hw; simp [pySplit] at hw
  | case2 c cs h ih =>
    intro w hw
    rw [pySplit, dif_pos h] at hw
    exact ih w hw
  | case3 c cs h ih =>
    intro w hw
    rw [pySplit, dif_neg h] at hw
    rcases List.mem_cons.mp hw with hw | hw
    · subst hw
      refine ⟨?_, ?_⟩
      · rw [List.takeWhile_cons_of_pos (by simp [noWsChar, h])]
        simp
      · intro x hx
        have := List.mem_takeWhile_imp hx
        simpa [noWsChar] using this
    · exact ih w hw

theorem pySplit_subset {l : PyText} :
    ∀ w ∈ pySplit l, ∀ c ∈ w, c ∈ l := by
  induction l using pySplit.induct with
  | case1 => intro w hw; simp [pySplit] at hw
  | case2 c cs h ih =>
    intro w hw x hx
    rw [pySplit, dif_pos h] at hw
    exact List.mem_cons_of_mem c (ih w hw x hx)
  | case3 c cs h ih =>
    intro w hw x hx
    rw [pySplit, dif_neg h] at hw
    rcases List.mem_cons.mp hw with hw | hw
    · subst hw
      exact (List.takeWhile_sublist noWsChar).subset hx
    · exact (List.dropWhile_sublist noWsChar).subset (ih w hw x hx)

theorem takeWhile_all_append {p : Char → Bool} {w l : PyText}
    (hw : ∀ c ∈ w, p c = true) : (w ++ l).takeWhile p = w ++ l.takeWhile p := by
  induction w with
  | nil => simp
  | cons c cs ih =>
    rw [List.cons_append, List.takeWhile_cons_of_pos (hw c (List.mem_cons_self c cs)),
      ih (fun x hx => hw x (List.mem_cons_of_mem c hx)), List.cons_append]

theorem dropWhile_all_append {p : Char → Bool} {w l : PyText}
    (hw : ∀ c ∈ w, p c = true) : (w ++ l).dropWhile p = l.dropWhile p := by
  induction w with
  | nil => simp
  | cons c cs ih =>
    rw [List.cons_append, List.dropWhile_cons_of_pos (hw c (List.mem_cons_self c cs)),
      ih (fun x hx => hw x (List.mem_cons_of_mem c hx))]

theorem takeWhile_all_eq_self {p : Char → Bool} {w : PyText}
    (hw : ∀ c ∈ w, p c = true) : w.takeWhile p = w := by
  have := takeWhile_all_append (l := []) hw
  simpa using this

theorem dropWhile_all_eq_nil {p : Char → Bool} {w : PyText}
    (hw : ∀ c ∈ w, p c = true) : w.dropWhile p = [] := by
  have := dropWhile_all_append (l := []) hw
  simpa using this

theorem pySplit_word_append {w rest : PyText} (hne : w ≠ [])
    (hws : ∀ c ∈ w, c.isWhitespace = false) :
    pySplit (w ++ ' ' :: rest) = w :: pySplit rest := by
  match w, hne with
  | c :: cs, _ =>
    have hall : ∀ x ∈ c :: cs, noWsChar x = true := by
      intro x hx; simp [noWsChar, hws x hx]
    have hc : ¬ (c.isWhitespace = true) := by
      simp [hws c (List.mem_cons_self c cs)]
    rw [List.cons_append, pySplit, dif_neg hc, ← List.cons_append,
      takeWhile_all_append hall, dropWhile_all_append hall]
    have hsp : (' ' :: rest).takeWhile noWsChar = [] := by
      rw [List.takeWhile_cons_of_neg (by simp [noWsChar])]
    have hsp2 : (' ' :: rest).dropWhile noWsChar = ' ' :: rest := by
      rw [List.dropWhile_cons_of_neg (by simp [noWsChar])]
    rw [hsp, hsp2, List.append_nil, pySplit, dif_pos (by simp : (' ').isWhitespace = true)]

theorem pySplit_single {w : PyText} (hne : w ≠ [])
    (hws : ∀ c ∈ w, c.isWhitespace = false) : pySplit w = [w] := by
  match w, hne with
  | c :: cs, _ =>
    have hall : ∀ x ∈ c :: cs, noWsChar x = true := by
      intro x hx; simp [noWsChar, hws x hx]
    have hc : ¬ (c.isWhitespace = true) := by
      simp [hws c (List.mem_cons_self c cs)]
    rw [pySplit, dif_neg hc, takeWhile_all_eq_self hall, dropWhile_all_eq_nil hall]
    simp [pySplit]

theorem pySplit_joinWords {ws : List PyText}
    (h : ∀ w ∈ ws, w ≠ [] ∧ ∀ c ∈ w, c.isWhitespace = false) :
    pySplit (joinWords ws) = ws := by
  induction ws with
  | nil => simp [joinWords, pySplit]
  | cons w ws ih =>
    match ws, ih with
    | [], _ =>
      have hw := h w (List.mem_cons_self w [])
      exact pySplit_single hw.1 hw.2
    | w' :: ws', ih =>
      have hw := h w (List.mem_cons_self w _)
      have hrest : ∀ u ∈ w' :: ws', u ≠ [] ∧ ∀ c ∈ u, c.isWhitespace = false :=
        fun u hu => h u (List.mem_cons_of_mem w hu)
      have hj : joinWords (w :: w' :: ws') = w ++ ' ' :: joinWords (w' :: ws') := rfl
      rw [hj, pySplit_word_append hw.1 hw.2, ih hrest]

theorem collapseWs_idem (l : PyText) : collapseWs (collapseWs l) = collapseWs l := by
  rw [collapseWs, collapseWs, pySplit_joinWords (fun w hw => pySplit_words w hw)]

theorem mem_joinWords {ws : List PyText} {c : Char} (hc : c ∈ joinWords ws) :
    c = ' ' ∨ ∃ w ∈ ws, c ∈ w := by
  induction ws with
  | nil => simp [joinWords] at hc
  | cons w ws ih =>
    match ws, ih with
    | [], _ =>
      right; exact ⟨w, List.mem_cons_self w [], hc⟩
    | w' :: ws', ih =>
      have hj : joinWords (w :: w' :: ws') = w ++ ' ' :: joinWords (w' :: ws') := rfl
      rw [hj] at hc
      rcases List.mem_append.mp hc with hc | hc
      · right; exact ⟨w, List.mem_cons_self w _, hc⟩
      · rcases List.mem_cons.mp hc with hc | hc
        · left; exact hc
        · rcases ih hc with hc | ⟨u, hu, hcu⟩
          · left; exact hc
          · right; exact ⟨u, List.mem_cons_of_mem w hu, hcu⟩

theorem mem_collapseWs {l : PyText} {c : Char} (hc : c ∈ collapseWs l) :
    c = ' ' ∨ c ∈ l := by
  rcases mem_joinWords hc with h | ⟨w, hw, hcw⟩
  · left; exact h
  · right; exact pySplit_subset w hw c hcw

theorem lowerText_collapseWs_lowerText (t : PyText) :
    lowerText (collapseWs (lowerText t)) = collapseWs (lowerText t) := by
  have hfix : ∀ c ∈ collapseWs (lowerText t), lowerChar c = c := by
    intro c hc
    rcases mem_collapseWs hc with h | h
    · rw [h]; exact lowerChar_space
    · rcases List.mem_map.mp h with ⟨d, _, hd⟩
      rw [← hd]; exact lowerChar_idem d
  calc lowerText (collapseWs (lowerText t))
      = List.map id (collapseWs (lowerText t)) := List.map_congr_left hfix
    _ = collapseWs (lowerText t) := List.map_id _

/-! ### Vectorizer-fit facts -/

theorem mem_selectTop_mem_pruned {stopWords : List Token} {corpus : List TokenDoc}
    {t : Token} (ht : t ∈ selectTop stopWords corpus) :
    t ∈ prunedCandidates stopWords corpus := by
  rw [selectTop] at ht
  by_cases hle : (prunedCandidates stopWords corpus).length ≤ maxFeatures
  · rwa [if_pos hle] at ht
  · rw [if_neg hle] at ht
    have := (List.take_sublist maxFeatures _).subset ht
    exact (List.perm_insertionSort (keyLE corpus) _).mem_iff.mp this

theorem docFreq_le_length (corpus : List TokenDoc) (t : Token) :
    docFreq corpus t ≤ corpus.length :=
  List.length_filter_le _ _

theorem mem_pruned_admissible {stopWords : List Token} {corpus : List TokenDoc}
    {t : Token} (ht : t ∈ prunedCandidates stopWords corpus) :
    2 ≤ docFreq corpus t ∧ 20 * docFreq corpus t ≤ 19 * corpus.length := by
  have := List.of_mem_filter ht
  rw [dfAdmissible, Bool.and_eq_true, decide_eq_true_eq, decide_eq_true_eq] at this
  exact this

theorem selectTop_length_le (stopWords : List Token) (corpus : List TokenDoc) :
    (selectTop stopWords corpus).length ≤ maxFeatures := by
  rw [selectTop]
  by_cases hle : (prunedCandidates stopWords corpus).length ≤ maxFeatures
  · rwa [if_pos hle]
  · rw [if_neg hle, List.length_take]
    exact min_le_left _ _

theorem selectTop_beats_dropped {stopWords : List Token} {corpus : List TokenDoc}
    {t u : Token} (ht : t ∈ selectTop stopWords corpus)
    (hu : u ∈ prunedCandidates stopWords corpus)
    (hu2 : u ∉ selectTop stopWords corpus) : keyLE corpus t u := by
  rw [selectTop] at ht hu2
  by_cases hle : (prunedCandidates stopWords corpus).length ≤ maxFeatures
  · rw [if_pos hle] at hu2; exact absurd hu hu2
  · rw [if_neg hle] at ht hu2
    set s := List.insertionSort (keyLE corpus) (prunedCandidates stopWords corpus) with hs
    have hsorted : List.Sorted (keyLE corpus) s := List.sorted_insertionSort _ _
    have hus : u ∈ s := (List.perm_insertionSort (keyLE corpus) _).mem_iff.mpr hu
    have husplit : u ∈ s.take maxFeatures ∨ u ∈ s.drop maxFeatures := by
      rw [← List.mem_append, List.take_append_drop]; exact hus
    have hud : u ∈ s.drop maxFeatures := husplit.resolve_left hu2
    have hpw : List.Pairwise (keyLE corpus) (s.take maxFeatures ++ s.drop maxFeatures) := by
      rw [List.take_append_drop]; exact hsorted
    exact ((List.pairwise_append.mp hpw).2.2) t ht u hud

theorem idfWeight_pos (stopWords : List Token) (corpus : List TokenDoc) (t : Token) :
    0 < idfWeight (fitVectorizer stopWords corpus) t := by
  have hdf : (fitVectorizer stopWords corpus).df t ≤ corpus.length :=
    docFreq_le_length corpus t
  have harg : (1 : ℝ) ≤ (1 + (fitVectorizer stopWords corpus).corpusSize) /
      (1 + (fitVectorizer stopWords corpus).df t) := by
    rw [one_le_div (by positivity)]
    have h1 : ((fitVectorizer stopWords corpus).df t : ℝ) ≤ corpus.length := by
      exact_mod_cast hdf
    have hn : ((fitVectorizer stopWords corpus).corpusSize : ℝ) = (corpus.length : ℝ) := by
      norm_num [fitVectorizer]
    rw [hn]; linarith
  have := Real.log_nonneg harg
  rw [idfWeight]; linarith

/-! ### Claim theorems -/

/-- C1: for every prediction request on a non-empty input with both
artifacts loaded, `/predict` succeeds and the returned confidence is the
probability of the predicted class (`predict_proba`'s class-1 entry when
the label is phishing, its class-0 entry when safe), and therefore
`0.5 ≤ confidence ≤ 1`. -/
theorem C1_confidence_is_predicted_class_probability
    (st : ServerState) (m : LogRegModel) (vz : PyText → List ℚ) (email : PyText)
    (hm : st.model = some m) (hv : st.vectorizer = some vz)
    (hne : isBlank email = false) :
    ∃ r : PredictionResponse, predict st email = Except.ok r ∧
      r.confidence = (if r.phishing then (predictProba m (vz email)).2
        else (predictProba m (vz email)).1) ∧
      1 / 2 ≤ r.confidence ∧ r.confidence ≤ 1 := by
  have hrun := predictRun_loaded_ok hm hv hne
  refine ⟨responseOf ⟨decisionValue m (vz email), modelPredict m (vz email) == 1⟩,
    by rw [predict, hrun]; rfl, ?_⟩
  by_cases hz : 0 < decisionValue m (vz email)
  · have hp : (modelPredict m (vz email) == 1) = true := by
      simp [modelPredict, hz]
    have hcast : (0 : ℝ) < ((decisionValue m (vz email) : ℚ) : ℝ) := by exact_mod_cast hz
    have hσ := (half_lt_sigmoid_iff ((decisionValue m (vz email) : ℚ) : ℝ)).mpr hcast
    have hσ1 := sigmoid_lt_one ((decisionValue m (vz email) : ℚ) : ℝ)
    refine ⟨?_, ?_, ?_⟩
    · simp [responseOf, predictProba, hp]
    · simpa [responseOf, hp] using hσ.le
    · simpa [responseOf, hp] using hσ1.le
  · have hp : (modelPredict m (vz email) == 1) = false := by
      simp [modelPredict, hz]
    have hcast : ((decisionValue m (vz email) : ℚ) : ℝ) ≤ 0 := by
      exact_mod_cast le_of_not_lt hz
    have hσ := (sigmoid_le_half_iff ((decisionValue m (vz email) : ℚ) : ℝ)).mpr hcast
    have hσ0 := sigmoid_pos ((decisionValue m (vz email) : ℚ) : ℝ)
    refine ⟨?_, ?_, ?_⟩
    · simp [responseOf, predictProba, hp]
    · simp only [responseOf, hp, Bool.false_eq_true, if_false]
      linarith
    · simp only [responseOf, hp, Bool.false_eq_true, if_false]
      linarith

/-- Witness for C1 at a concrete loaded state and non-blank email. -/
theorem C1_confidence_witness :
    ∃ r : PredictionResponse, predict exampleState exampleEmail = Except.ok r ∧
      r.confidence = (if r.phishing then (predictProba exampleModel (exampleTransform exampleEmail)).2
        else (predictProba exampleModel (exampleTransform exampleEmail)).1) ∧
      1 / 2 ≤ r.confidence ∧ r.confidence ≤ 1 :=
  C1_confidence_is_predicted_class_probability
    exampleState exampleModel exampleTransform exampleEmail rfl rfl rfl

/-- C2: when the serving process starts with one or both artifact files
absent, startup completes with a degraded state (no crash: `lifespanStartup`
is total), and every subsequent predict call returns the 503
service-unavailable error, which is distinct from the 400 validation
error. -/
theorem C2_missing_artifacts_serve_degraded
    (fs : ArtifactFiles) (h : fs.modelFile = none ∨ fs.vectorizerFile = none) :
    (lifespanStartup fs).model = none ∧ (lifespanStartup fs).vectorizer = none ∧
    ∀ email : PyText,
      statusOf (predictRun (lifespanStartup fs) email).1 = some 503 ∧
      statusOf (predictRun (lifespanStartup fs) email).1 ≠ some 400 := by
  obtain ⟨mf, vf⟩ := fs
  have hdeg : (lifespanStartup ⟨mf, vf⟩).model = none ∧
      (lifespanStartup ⟨mf, vf⟩).vectorizer = none := by
    simp only at h
    rcases h with h | h
    · subst h; exact ⟨rfl, rfl⟩
    · subst h
      cases mf with
      | none => exact ⟨rfl, rfl⟩
      | some m => exact ⟨rfl, rfl⟩
  refine ⟨hdeg.1, hdeg.2, fun email => ?_⟩
  rw [predictRun_unavailable (Or.inl hdeg.1) email]
  exact ⟨rfl, by simp [statusOf]⟩

/-- Witness for C2 at a file system with both artifacts missing. -/
theorem C2_missing_artifacts_witness :
    (lifespanStartup exampleMissingFiles).model = none ∧
    statusOf (predictRun (lifespanStartup exampleMissingFiles) exampleEmail).1 = some 503 :=
  ⟨(C2_missing_artifacts_serve_degraded exampleMissingFiles (Or.inl rfl)).1,
   ((C2_missing_artifacts_serve_degraded exampleMissingFiles (Or.inl rfl)).2.2
      exampleEmail).1⟩

/-- C3 counterexample: a whitespace-only request sent while the artifacts
are unloaded is answered with the 503 unavailability error, not with the
claimed 400 invalid-input error, because the artifact check runs first. -/
theorem C3_blank_rejection_counterexample :
    isBlank exampleBlankEmail = true ∧
    statusOf (predictRun degradedState exampleBlankEmail).1 ≠ some 400 := by
  refine ⟨rfl, ?_⟩
  rw [predictRun_unavailable (Or.inl rfl) exampleBlankEmail]
  simp [statusOf]

/-- C3 (amended): when both artifacts are loaded, every blank (empty or
whitespace-only) request is rejected with the 400 invalid-input error and
the vectorizer/model branch is never entered; with an artifact missing,
blank requests instead receive the 503 error (still with no model
invocation). -/
theorem C3_blank_rejected_before_model
    (st : ServerState) (m : LogRegModel) (vz : PyText → List ℚ) (email : PyText)
    (hm : st.model = some m) (hv : st.vectorizer = some vz)
    (hb : isBlank email = true) :
    (predictRun st email).1 = Except.error ⟨400, "Email text cannot be empty"⟩ ∧
    (predictRun st email).2 = false := by
  rw [predictRun_loaded_blank hm hv hb]
  exact ⟨rfl, rfl⟩

/-- Witness for the amended C3 at a concrete loaded state and blank email. -/
theorem C3_blank_rejected_witness :
    (predictRun exampleState exampleBlankEmail).1 =
      Except.error ⟨400, "Email text cannot be empty"⟩ ∧
    (predictRun exampleState exampleBlankEmail).2 = false :=
  C3_blank_rejected_before_model
    exampleState exampleModel exampleTransform exampleBlankEmail rfl rfl rfl

/-- C4: after fitting on a corpus of N documents, the vocabulary excludes
every token with document frequency below 2 or document-frequency ratio
above 0.95, holds at most 8000 tokens, every retained token beats every
pruned-but-dropped candidate in the selection order (higher score, ties
broken lexicographically), and the stored IDF weight of every retained
token equals `log((1+N)/(1+df)) + 1` and is strictly positive. -/
theorem C4_fit_vocabulary_properties (stopWords : List Token) (corpus : List TokenDoc) :
    (∀ t : Token, docFreq corpus t < 2 ∨ 19 * corpus.length < 20 * docFreq corpus t →
      t ∉ (fitVectorizer stopWords corpus).vocab) ∧
    (fitVectorizer stopWords corpus).vocab.length ≤ 8000 ∧
    (∀ t ∈ (fitVectorizer stopWords corpus).vocab,
      ∀ u ∈ prunedCandidates stopWords corpus,
        u ∉ (fitVectorizer stopWords corpus).vocab → keyLE corpus t u) ∧
    (∀ t ∈ (fitVectorizer stopWords corpus).vocab,
      idfWeight (fitVectorizer stopWords corpus) t =
        Real.log ((1 + (corpus.length : ℝ)) / (1 + (docFreq corpus t : ℝ))) + 1 ∧
      0 < idfWeight (fitVectorizer stopWords corpus) t) := by
  refine ⟨?_, ?_, ?_, ?_⟩
  · intro t hdf ht
    have := mem_pruned_admissible (mem_selectTop_mem_pruned ht)
    omega
  · exact selectTop_length_le stopWords corpus
  · intro t ht u hu hu2
    exact selectTop_beats_dropped ht hu hu2
  · intro t _
    exact ⟨rfl, idfWeight_pos stopWords corpus t⟩

/-- Witness for C4 on a concrete three-document corpus: the document
frequency of "b" is 1 so it is excluded, the cap holds, and the IDF
weight of the retained token "a" is positive. -/
theorem C4_fit_vocabulary_witness :
    "b" ∉ (fitVectorizer [] exampleCorpus).vocab ∧
    (fitVectorizer [] exampleCorpus).vocab.length ≤ 8000 ∧
    0 < idfWeight (fitVectorizer [] exampleCorpus) "a" :=
  ⟨(C4_fit_vocabulary_properties [] exampleCorpus).1 "b" (Or.inl (by decide)),
   (C4_fit_vocabulary_properties [] exampleCorpus).2.1,
   ((C4_fit_vocabulary_properties [] exampleCorpus).2.2.2 "a" (by decide)).2⟩

/-- C5 counterexample: at decision value exactly 0 the sigmoid score is
exactly 0.5, yet the code labels the input safe (`predict` returns 0,
not 1), refuting the claimed "phishing iff score ≥ 0.5" including the
boundary. -/
theorem C5_boundary_counterexample :
    ¬ ((modelPredict boundaryModel [] = 1) ↔
      1 / 2 ≤ sigmoid ((decisionValue boundaryModel [] : ℚ) : ℝ)) := by
  intro hiff
  have hz : decisionValue boundaryModel [] = 0 := by
    simp [decisionValue, boundaryModel, dotQ]
  have hs : (1 : ℝ) / 2 ≤ sigmoid ((decisionValue boundaryModel [] : ℚ) : ℝ) := by
    rw [hz, Rat.cast_zero, sigmoid_zero]
  exact absurd (hiff.mpr hs) (by simp [modelPredict, hz])

/-- C5 (amended): the code labels a feature vector phishing exactly when
`sigmoid(w·v + b)` is strictly greater than 0.5 (equivalently, the
decision value is strictly positive); at a score of exactly 0.5 the
label is safe. -/
theorem C5_decision_rule (m : LogRegModel) (v : List ℚ) :
    modelPredict m v = 1 ↔ 1 / 2 < sigmoid ((decisionValue m v : ℚ) : ℝ) := by
  rw [half_lt_sigmoid_iff]
  constructor
  · intro h
    by_cases hz : 0 < decisionValue m v
    · exact_mod_cast hz
    · simp [modelPredict, hz] at h
  · intro h
    have hz : 0 < decisionValue m v := by exact_mod_cast h
    simp [modelPredict, hz]

/-- C6: the fitted vectorizer (vocabulary, its size, and all IDF weights)
produced by the training pipeline depends only on the train partition:
two runs sharing the train partition agree exactly, whatever the held-out
test partitions contain. -/
theorem C6_no_test_leakage (stopWords : List Token)
    (trainDocs te1 te2 : List TokenDoc) :
    (train_model_core stopWords trainDocs te1).vect =
      (train_model_core stopWords trainDocs te2).vect ∧
    (train_model_core stopWords trainDocs te1).vect.vocab =
      (train_model_core stopWords trainDocs te2).vect.vocab ∧
    (train_model_core stopWords trainDocs te1).vect.vocab.length =
      (train_model_core stopWords trainDocs te2).vect.vocab.length ∧
    ∀ t : Token, idfWeight (train_model_core stopWords trainDocs te1).vect t =
      idfWeight (train_model_core stopWords trainDocs te2).vect t :=
  ⟨rfl, rfl, rfl, fun _ => rfl⟩

/-- C7 counterexample: the training loader maps the label string "1.0"
to 1 although its lowercased form is not in the claimed four-element
truthy set, and the accuracy checker maps the same value to 0 — so the
claimed mapping criterion is wrong for the trainer and the two coercion
sites do not apply the same mapping. -/
theorem C7_truthy_set_counterexample :
    labelNormalizeTrain "1.0" = 1 ∧
    pyLower "1.0" ∉ (["1", "true", "phishing", "yes"] : List String) ∧
    labelNormalizeCheck "1.0" = 0 ∧
    labelNormalizeTrain "1.0" ≠ labelNormalizeCheck "1.0" := by
  refine ⟨by decide, by decide, by decide, by decide⟩

/-- C7 (amended): `train_model.py` normalizes a label to 1 exactly when
its lowercased string form is in {"1","true","phishing","yes","1.0"},
while `check_model_accuracy.py` uses the four-element set without "1.0";
the two mappings agree on every value whose lowercased form is not
"1.0". -/
theorem C7_truthy_set_mappings (x : String) :
    (labelNormalizeTrain x = 1 ↔
      pyLower x ∈ (["1", "true", "phishing", "yes", "1.0"] : List String)) ∧
    (labelNormalizeCheck x = 1 ↔
      pyLower x ∈ (["1", "true", "phishing", "yes"] : List String)) ∧
    (pyLower x ≠ "1.0" → labelNormalizeTrain x = labelNormalizeCheck x) := by
  refine ⟨?_, ?_, ?_⟩
  · rw [labelNormalizeTrain]
    split_ifs with h
    · simp [h]
    · simp [h]
  · rw [labelNormalizeCheck]
    split_ifs with h
    · simp [h]
    · simp [h]
  · intro hne
    rw [labelNormalizeTrain, labelNormalizeCheck]
    by_cases h2 : pyLower x ∈ (["1", "true", "phishing", "yes"] : List String)
    · have h1 : pyLower x ∈ (["1", "true", "phishing", "yes", "1.0"] : List String) := by
        simp at h2 ⊢; tauto
      rw [if_pos h1, if_pos h2]
    · by_cases h1 : pyLower x ∈ (["1", "true", "phishing", "yes", "1.0"] : List String)
      · exfalso
        apply hne
        simp at h1 h2
        tauto
      · rw [if_neg h1, if_neg h2]

/-- Witness for the amended C7: on "True" both coercion sites agree. -/
theorem C7_truthy_set_witness :
    labelNormalizeTrain "True" = labelNormalizeCheck "True" :=
  (C7_truthy_set_mappings "True").2.2 (by decide)

/-- C8 counterexample: interrupting the persistence phase after the first
of the two sequential `joblib.dump` writes leaves the model artifact
present and the vectorizer artifact absent — exactly one of the pair —
so persistence is not both-or-neither atomic. -/
theorem C8_atomicity_counterexample :
    ¬ bothOrNeither (runPersist 1 freshDir) ∧
    (runPersist 1 freshDir).modelFileExists = true ∧
    (runPersist 1 freshDir).vectorizerFileExists = false := by
  refine ⟨?_, rfl, rfl⟩
  intro h
  rw [bothOrNeither] at h
  simp [runPersist, persistSteps, saveModelStep, saveVectorizerStep, freshDir] at h

/-- C8 (amended): the training pipeline writes the model artifact first
and the vectorizer artifact second as two independent sequential writes;
a run whose persistence phase completes leaves both artifacts present,
but a failure between the two writes leaves the model written and the
vectorizer in its prior state (absent on a fresh run). -/
theorem C8_sequential_persistence (d : ArtifactDir) :
    runPersist 2 d = ⟨true, true⟩ ∧
    runPersist 1 d = ⟨true, d.vectorizerFileExists⟩ ∧
    runPersist 0 d = d := by
  obtain ⟨mf, vf⟩ := d
  exact ⟨rfl, rfl, rfl⟩

/-- C9: the artifact-availability check precedes input validation — with
the model or vectorizer unloaded every request (blank ones included)
gets the 503 error, and a 400 response implies both artifacts were
loaded. -/
theorem C9_artifact_check_precedes_validation (st : ServerState) (email : PyText) :
    (st.model = none ∨ st.vectorizer = none →
      statusOf (predictRun st email).1 = some 503) ∧
    (statusOf (predictRun st email).1 = some 400 →
      st.model ≠ none ∧ st.vectorizer ≠ none) := by
  constructor
  · intro h
    rw [predictRun_unavailable h email]
    rfl
  · intro h400
    constructor <;> intro hn
    · rw [predictRun_unavailable (Or.inl hn) email] at h400
      simp [statusOf] at h400
    · rw [predictRun_unavailable (Or.inr hn) email] at h400
      simp [statusOf] at h400

/-- Witness for C9: a blank request to the degraded state gets 503. -/
theorem C9_artifact_check_witness :
    statusOf (predictRun degradedState exampleBlankEmail).1 = some 503 :=
  (C9_artifact_check_precedes_validation degradedState exampleBlankEmail).1 (Or.inl rfl)

/-- C10: `preprocess_text` is idempotent — reprocessing its own output
changes nothing — and missing (`pd.isna`) input maps to the empty
string. -/
theorem C10_preprocess_text_idempotent (x : Option PyText) :
    preprocess_text (some (preprocess_text x)) = preprocess_text x ∧
    preprocess_text none = ([] : PyText) := by
  constructor
  · match x with
    | none => simp [preprocess_text, collapseWs, lowerText, pySplit, joinWords]
    | some t =>
      show collapseWs (lowerText (collapseWs (lowerText t))) = collapseWs (lowerText t)
      rw [lowerText_collapseWs_lowerText, collapseWs_idem]
  · rfl

end PhishNot
